import Mathlib

/- Verification of the Streaming-Screen polling server (src/server.js).

   Shallow embedding of the scheduler, the backoff arithmetic, the error
   classifiers, the chat-item classifier, the SSE fanout and the token
   threading logic, together with theorems checking the natural-language
   specification against this embedding.  JavaScript numbers at the
   scheduling boundary are modelled as integers (plus an explicit NaN case
   where non-numeric input matters); absent JavaScript fields are modelled
   as Option, with the falsiness of the empty string and of zero made
   explicit at every point where the source relies on it. -/

namespace StreamingScreen

/-- JavaScript number as it reaches scheduleNextPoll: either an (integral)
number or NaN, which is what Number(ms) yields on non-numeric input. -/
inductive JsNum where
  | num (n : Int)
  | nan
deriving DecidableEq

/-- Model of the JS fallback expression Number(ms) or-else 1200 inside
scheduleNextPoll: NaN and 0 are falsy, every other number passes through. -/
def jsNumOr1200 : JsNum → Int
  | .num n => if n == 0 then 1200 else n
  | .nan => 1200

/-- Delay computation of scheduleNextPoll: Math.max(1200, Number(ms) or-else 1200)
(src/server.js line 644). -/
def scheduleDelay (ms : JsNum) : Int := max 1200 (jsNumOr1200 ms)

/-- Delay computation for the internal call sites, which always pass a number. -/
def scheduleDelayInt (ms : Int) : Int := scheduleDelay (.num ms)

/-- Observable result of scheduleNextPoll: the timer delay, the recorded
effective interval (lastPollMsEffective) and the recorded next wake instant
(nextPollAt, as an integer clock reading now + delay). -/
structure ScheduleResult where
  delay : Int
  lastPollMsEffective : Int
  nextPollAt : Int
deriving DecidableEq

/-- scheduleNextPoll (src/server.js lines 642-651): clamp the requested
delay, record it, and arm the timer at now + delay. -/
def scheduleNextPoll (now : Int) (ms : JsNum) : ScheduleResult :=
  { delay := scheduleDelay ms
    lastPollMsEffective := scheduleDelay ms
    nextPollAt := now + scheduleDelay ms }

/-- pollLiveChat returns pollMsFromApi = Number(pollingIntervalMillis or-else 0),
and pollLoop reads it back through Number(r?.pollMsFromApi or-else 0); an absent
suggestion therefore reaches the scheduler as 0. -/
def apiMsOf (suggested : Option Int) : Int := suggested.getD 0

/-- Success-path delay of pollLoop (src/server.js lines 926-930):
baseMs = max(1200, YT_POLL_MS); nextMs = apiMs > 0 ? max(baseMs, apiMs) : baseMs;
then the scheduleNextPoll clamp is applied to nextMs. -/
def pollLoopSuccessDelay (ytPollMs : Int) (suggested : Option Int) : Int :=
  let apiMs := apiMsOf suggested
  let baseMs := max 1200 ytPollMs
  let nextMs := if 0 < apiMs then max baseMs apiMs else baseMs
  scheduleDelayInt nextMs

/-- C10: every scheduled poll delay is clamped to at least 1200 ms.  For a
numeric request the armed delay is max(1200, requested) (zero and negative
requests give 1200), a non-numeric request gives 1200, the clamped delay is
exactly what is recorded as the effective poll interval, the next-wake
instant is now + delay, and the delay is never below 1200. -/
theorem scheduleNextPoll_clamps_to_1200 (now : Int) (ms : JsNum) :
    (scheduleNextPoll now ms).delay =
      (match ms with
       | .num n => max 1200 n
       | .nan => 1200)
    ∧ (scheduleNextPoll now ms).lastPollMsEffective = (scheduleNextPoll now ms).delay
    ∧ (scheduleNextPoll now ms).nextPollAt = now + (scheduleNextPoll now ms).delay
    ∧ 1200 ≤ (scheduleNextPoll now ms).delay := by
  cases ms with
  | num n =>
    refine ⟨?_, rfl, rfl, ?_⟩ <;>
      simp only [scheduleNextPoll, scheduleDelay, jsNumOr1200, beq_iff_eq] <;>
      by_cases h : n = 0 <;> simp [h] <;> omega
  | nan =>
    refine ⟨?_, rfl, rfl, ?_⟩ <;>
      simp [scheduleNextPoll, scheduleDelay, jsNumOr1200]

/-- C1: on a successful poll cycle, when the API suggests a (positive)
polling interval the armed delay is max(max(1200, YT_POLL_MS), suggestion),
i.e. the maximum of the 1200 ms floor, the configured base interval and the
API suggestion; when no suggestion is present the armed delay is
max(1200, YT_POLL_MS). -/
theorem pollLoop_success_delay (ytPollMs v : Int) :
    (0 < v → pollLoopSuccessDelay ytPollMs (some v) = max (max 1200 ytPollMs) v)
    ∧ pollLoopSuccessDelay ytPollMs none = max 1200 ytPollMs := by
  constructor
  · intro hv
    simp only [pollLoopSuccessDelay, apiMsOf, Option.getD_some, if_pos hv,
      scheduleDelayInt, scheduleDelay, jsNumOr1200, beq_iff_eq]
    omega
  · simp only [pollLoopSuccessDelay, apiMsOf, Option.getD_none,
      scheduleDelayInt, scheduleDelay, jsNumOr1200, beq_iff_eq]
    omega

/-- Witness for C1 at the default configuration YT_POLL_MS = 15000 with a
suggested interval of 20000 ms, and with no suggestion. -/
theorem pollLoop_success_delay_witness :
    (0 : Int) < 20000
    ∧ pollLoopSuccessDelay 15000 (some 20000) = 20000
    ∧ pollLoopSuccessDelay 15000 none = 15000 := by
  refine ⟨by norm_num, ?_, ?_⟩
  · have h := (pollLoop_success_delay 15000 20000).1 (by norm_num)
    simpa using h
  · have h := (pollLoop_success_delay 15000 20000).2
    simpa using h

/-- Character-wise lower-casing, modelling String.prototype.toLowerCase on
the ASCII range (the only letters the error classifiers compare; Char.toLower
is the identity beyond ASCII, as toLowerCase is on the substrings involved). -/
def jsLower (s : String) : String := String.mk (s.data.map Char.toLower)

/-- needle is an initial segment of the haystack. -/
def leadsWith : List Char → List Char → Bool
  | [], _ => true
  | _ :: _, [] => false
  | c :: cs, h :: hs => c == h && leadsWith cs hs

/-- needle occurs contiguously somewhere in the haystack. -/
def containsSeq (needle : List Char) : List Char → Bool
  | [] => needle.isEmpty
  | h :: t => leadsWith needle (h :: t) || containsSeq needle t

/-- JS String.prototype.includes. -/
def jsIncludes (hay sub : String) : Bool := containsSeq sub.data hay.data

/-- Error surfaced by the remote API.  The classifiers read only the human
message and the machine reason; an absent field normalises to the empty
string, exactly as String(x or-else empty) does in the source. -/
structure ApiError where
  message : String
  reason : String
deriving DecidableEq

/-- isQuotaExceededError (src/server.js lines 605-609). -/
def isQuotaExceededError (e : ApiError) : Bool :=
  let msg := jsLower e.message
  let reason := jsLower e.reason
  jsIncludes msg "exceeded your quota" || reason == "quotaexceeded"
    || jsIncludes msg "quotaexceeded"

/-- isChatNoLongerLiveError (src/server.js lines 611-615). -/
def isChatNoLongerLiveError (e : ApiError) : Bool :=
  let msg := jsLower e.message
  let reason := jsLower e.reason
  jsIncludes msg "live chat is no longer live" || reason == "livechatnotfound"
    || reason == "livechatclosed"

/-- Module-level mutable polling state of the server: the enable switch, the
armed timer (pollTimeout non-null), the quota backoff pair, and the cached
live-session markers. -/
structure ServerState where
  ytEnabled : Bool
  pollArmed : Bool
  backoffMs : Int
  backoffUntil : Option Int
  lastSeenMessageId : Option String
  activeLiveChatId : Option String
  nextPageToken : Option String
  activeBroadcast : Option String
deriving DecidableEq

/-- resetLiveState (src/server.js lines 632-640): clears the last seen
message id, the continuation token, the chat-session id and the cached
broadcast. -/
def resetLiveState (s : ServerState) : ServerState :=
  { s with lastSeenMessageId := none, nextPageToken := none,
           activeLiveChatId := none, activeBroadcast := none }

/-- One quota-error update of backoffMs (src/server.js line 948):
backoffMs = backoffMs ? min(backoffMs * 2, YT_BACKOFF_MAX_MS)
                      : min(60000, YT_BACKOFF_MAX_MS). -/
def quotaNextBackoff (backoffMax b : Int) : Int :=
  if b == 0 then min 60000 backoffMax else min (b * 2) backoffMax

/-- backoffMs after k consecutive quota-exhaustion classifications starting
from the reset value 0. -/
def backoffAfter (backoffMax : Int) : Nat → Int
  | 0 => 0
  | k + 1 => quotaNextBackoff backoffMax (backoffAfter backoffMax k)

/-- Error path of one pollLoop cycle (src/server.js lines 931-957): classify
the error; on chat-no-longer-live reset the live state and slow down to
max(15000, max(1200, YT_POLL_MS)); on quota exhaustion grow the backoff and
schedule it; otherwise retry at the slowed fixed interval.  Returns the state
after the cycle and the delay handed to scheduleNextPoll (after its clamp). -/
def pollLoopErrorStep (ytPollMs backoffMax now : Int) (s : ServerState) (e : ApiError) :
    ServerState × Int :=
  if isChatNoLongerLiveError e then
    (resetLiveState s, scheduleDelayInt (max 15000 (max 1200 ytPollMs)))
  else if isQuotaExceededError e then
    let b := quotaNextBackoff backoffMax s.backoffMs
    ({ s with backoffMs := b, backoffUntil := some (now + b) }, scheduleDelayInt b)
  else
    (s, scheduleDelayInt (max 15000 (max 1200 ytPollMs)))

/-- Success path of one pollLoop cycle (src/server.js lines 920-930): reset
the backoff pair and schedule the success delay. -/
def pollLoopSuccessStep (ytPollMs : Int) (s : ServerState) (suggested : Option Int) :
    ServerState × Int :=
  ({ s with backoffUntil := none, backoffMs := 0 },
   pollLoopSuccessDelay ytPollMs suggested)

/-- The value min(60000 * 2 ^ k, M) is at least 1200 whenever M is. -/
theorem backoff_value_lb (M : Int) (k : Nat) (hM : 1200 ≤ M) :
    1200 ≤ min (60000 * 2 ^ k) M := by
  have hp : (0 : Int) < 2 ^ k := pow_pos (by norm_num) k
  have h2 : (1 : Int) ≤ 2 ^ k := by omega
  have : (60000 : Int) * 1 ≤ 60000 * 2 ^ k :=
    mul_le_mul_of_nonneg_left h2 (by norm_num)
  omega

/-- Closed form of the backoff iteration: after k + 1 consecutive quota
errors from reset, backoffMs = min(60000 * 2 ^ k, M), for any maximum
M ≥ 1200. -/
theorem backoffAfter_closed_form (M : Int) (hM : 1200 ≤ M) (k : Nat) :
    backoffAfter M (k + 1) = min (60000 * 2 ^ k) M := by
  induction k with
  | zero =>
    simp [backoffAfter, quotaNextBackoff]
  | succ k ih =>
    have hlb : 1200 ≤ min (60000 * 2 ^ k) M := backoff_value_lb M k hM
    have hne : (min (60000 * 2 ^ k) M == 0) = false := by
      simp only [beq_eq_false_iff_ne, ne_eq]
      omega
    have hpow : (60000 : Int) * 2 ^ (k + 1) = 60000 * 2 ^ k * 2 := by
      rw [pow_succ]; ring
    calc backoffAfter M (k + 2)
        = quotaNextBackoff M (backoffAfter M (k + 1)) := rfl
      _ = quotaNextBackoff M (min (60000 * 2 ^ k) M) := by rw [ih]
      _ = min (min (60000 * 2 ^ k) M * 2) M := by
          simp [quotaNextBackoff, hne]
      _ = min (60000 * 2 ^ (k + 1)) M := by
          rw [hpow]
          omega

/-- C2: from a state reached by k prior consecutive quota classifications
(backoffMs = backoffAfter M k), one more quota-classified cycle (that is not
also classified chat-no-longer-live) sets backoffMs to min(60000 * 2^k, M)
and schedules exactly that delay — i.e. after k + 1 consecutive quota errors
the scheduled backoff is min(base * 2^((k+1)-1), max) with base = 60000 and
max = YT_BACKOFF_MAX_MS ≥ 1200 — while any successful cycle resets backoffMs
to 0, so the next quota error starts again from min(60000, M). -/
theorem backoff_growth (M yt now : Int) (k : Nat) (s : ServerState) (e : ApiError)
    (sugg : Option Int)
    (hM : 1200 ≤ M)
    (hq : isQuotaExceededError e = true)
    (hc : isChatNoLongerLiveError e = false)
    (hs : s.backoffMs = backoffAfter M k) :
    (pollLoopErrorStep yt M now s e).1.backoffMs = min (60000 * 2 ^ k) M
    ∧ (pollLoopErrorStep yt M now s e).2 = min (60000 * 2 ^ k) M
    ∧ (pollLoopSuccessStep yt s sugg).1.backoffMs = 0
    ∧ quotaNextBackoff M 0 = min 60000 M := by
  have hstep : quotaNextBackoff M s.backoffMs = min (60000 * 2 ^ k) M := by
    have := backoffAfter_closed_form M hM k
    rw [hs]
    simpa [backoffAfter] using this
  have hlb : 1200 ≤ min (60000 * 2 ^ k) M := backoff_value_lb M k hM
  refine ⟨?_, ?_, ?_, ?_⟩
  · simp [pollLoopErrorStep, hc, hq, hstep]
  · simp only [pollLoopErrorStep, hc, hq, Bool.false_eq_true, if_false, if_true, hstep]
    simp only [scheduleDelayInt, scheduleDelay, jsNumOr1200, beq_iff_eq]
    have hne : ¬ (min (60000 * 2 ^ k) M = 0) := by omega
    rw [if_neg hne]
    omega
  · simp [pollLoopSuccessStep]
  · simp [quotaNextBackoff]

/-- Witness for C2 at the default maximum YT_BACKOFF_MAX_MS = 1800000
(30 minutes), after k = 2 prior quota errors (backoffMs = 120000): the third
quota error schedules min(60000 * 2^2, 1800000) = 240000 ms. -/
theorem backoff_growth_witness :
    (1200 : Int) ≤ 1800000
    ∧ isQuotaExceededError { message := "Quota exceeded", reason := "quotaExceeded" } = true
    ∧ isChatNoLongerLiveError { message := "Quota exceeded", reason := "quotaExceeded" } = false
    ∧ (pollLoopErrorStep 15000 1800000 0
        { ytEnabled := true, pollArmed := true, backoffMs := 120000,
          backoffUntil := some 0, lastSeenMessageId := none,
          activeLiveChatId := some "chat", nextPageToken := none,
          activeBroadcast := none }
        { message := "Quota exceeded", reason := "quotaExceeded" }).2 = 240000 := by
  refine ⟨by norm_num, by decide, by decide, ?_⟩
  have h := backoff_growth 1800000 15000 0 2
      { ytEnabled := true, pollArmed := true, backoffMs := 120000,
        backoffUntil := some 0, lastSeenMessageId := none,
        activeLiveChatId := some "chat", nextPageToken := none,
        activeBroadcast := none }
      { message := "Quota exceeded", reason := "quotaExceeded" }
      none (by norm_num) (by decide) (by decide) (by decide)
  have h2 := h.2.1
  norm_num at h2
  exact h2

/-- The next pollLiveChat cycle re-resolves the live session exactly when no
chat-session id is cached (src/server.js lines 811-819). -/
def nextCycleResolvesSession (s : ServerState) : Bool := s.activeLiveChatId == none

/-- C6: a cycle whose error is classified chat-no-longer-live clears the
cached chat-session id, continuation token, last-seen message id and cached
broadcast (so the next cycle re-resolves the live session), and schedules the
next wake after exactly max(15000, max(1200, YT_POLL_MS)) ms. -/
theorem chat_ended_resets_session (yt M now : Int) (s : ServerState) (e : ApiError)
    (hc : isChatNoLongerLiveError e = true) :
    (pollLoopErrorStep yt M now s e).1.activeLiveChatId = none
    ∧ (pollLoopErrorStep yt M now s e).1.nextPageToken = none
    ∧ (pollLoopErrorStep yt M now s e).1.lastSeenMessageId = none
    ∧ (pollLoopErrorStep yt M now s e).1.activeBroadcast = none
    ∧ nextCycleResolvesSession (pollLoopErrorStep yt M now s e).1 = true
    ∧ (pollLoopErrorStep yt M now s e).2 = max 15000 (max 1200 yt) := by
  refine ⟨?_, ?_, ?_, ?_, ?_, ?_⟩
  · simp [pollLoopErrorStep, hc, resetLiveState]
  · simp [pollLoopErrorStep, hc, resetLiveState]
  · simp [pollLoopErrorStep, hc, resetLiveState]
  · simp [pollLoopErrorStep, hc, resetLiveState]
  · simp [pollLoopErrorStep, hc, resetLiveState, nextCycleResolvesSession]
  · simp only [pollLoopErrorStep, hc, if_true]
    simp only [scheduleDelayInt, scheduleDelay, jsNumOr1200, beq_iff_eq]
    have hne : ¬ (max 15000 (max 1200 yt) = (0 : Int)) := by omega
    rw [if_neg hne]
    omega

/-- Witness for C6: the literal API error message for an ended live chat, on
a state holding a stale chat-session id and cursor, with YT_POLL_MS = 15000;
the slowed interval is 15000 ms and all four markers are cleared. -/
theorem chat_ended_resets_session_witness :
    isChatNoLongerLiveError { message := "The live chat is no longer live.", reason := "" } = true
    ∧ (pollLoopErrorStep 15000 1800000 0
        { ytEnabled := true, pollArmed := true, backoffMs := 0,
          backoffUntil := none, lastSeenMessageId := some "m1",
          activeLiveChatId := some "stale", nextPageToken := some "tok",
          activeBroadcast := some "b1" }
        { message := "The live chat is no longer live.", reason := "" }).1.activeLiveChatId = none
    ∧ (pollLoopErrorStep 15000 1800000 0
        { ytEnabled := true, pollArmed := true, backoffMs := 0,
          backoffUntil := none, lastSeenMessageId := some "m1",
          activeLiveChatId := some "stale", nextPageToken := some "tok",
          activeBroadcast := some "b1" }
        { message := "The live chat is no longer live.", reason := "" }).2 = 15000 := by
  have h := chat_ended_resets_session 15000 1800000 0
      { ytEnabled := true, pollArmed := true, backoffMs := 0,
        backoffUntil := none, lastSeenMessageId := some "m1",
        activeLiveChatId := some "stale", nextPageToken := some "tok",
        activeBroadcast := some "b1" }
      { message := "The live chat is no longer live.", reason := "" }
      (by decide)
  refine ⟨by decide, h.1, ?_⟩
  have h6 := h.2.2.2.2.2
  norm_num at h6
  exact h6

/-- Continuation-token update after a fetch response (src/server.js line 834):
nextPageToken = resp.data.nextPageToken or-else nextPageToken.  An absent or
empty response token (both falsy) leaves the stored token unchanged. -/
def advanceToken (current resp : Option String) : Option String :=
  match resp with
  | some t => if t == "" then current else some t
  | none => current

/-- Token actually passed to the next fetch call (src/server.js line 827):
pageToken = nextPageToken or-else undefined. -/
def tokenForFetch (current : Option String) : Option String :=
  match current with
  | some t => if t == "" then none else some t
  | none => none

/-- C7 counterexample: when a fetch response carries no continuation token,
the token passed to the next fetch is the previous token, not the (absent)
token returned by that response — so the claim that the token used in call
N + 1 always equals the token returned by call N fails at this input. -/
theorem token_kept_when_response_has_none :
    advanceToken (some "t0") none = some "t0"
    ∧ tokenForFetch (advanceToken (some "t0") none) = some "t0"
    ∧ tokenForFetch (advanceToken (some "t0") none) ≠ none := by
  refine ⟨rfl, rfl, by decide⟩

/-- C7 (amended): the token threaded into fetch call N + 1 equals the token
returned by call N whenever that response carries a non-empty token;
otherwise (absent or empty response token) the token used at call N remains
in place unchanged.  No other mutation of the token happens inside the fetch
path, so the token never rolls back except through an explicit reset. -/
theorem token_threading (cur : Option String) (t : String) :
    (t ≠ "" → advanceToken cur (some t) = some t)
    ∧ advanceToken cur none = cur
    ∧ advanceToken cur (some "") = cur := by
  refine ⟨?_, rfl, rfl⟩
  intro ht
  simp [advanceToken, ht]

/-- Witness for C7 (amended): a response token "t1" replaces "t0", and the
replacement is threaded into the next fetch. -/
theorem token_threading_witness :
    ("t1" : String) ≠ ""
    ∧ advanceToken (some "t0") (some "t1") = some "t1"
    ∧ advanceToken (some "t0") none = some "t0" := by
  refine ⟨by decide, ?_, ?_⟩
  · exact (token_threading (some "t0") "t1").1 (by decide)
  · exact (token_threading (some "t0") "t1").2.1

/-- OAuth credential as stored in the cookie session: access token, optional
refresh token, expiry instant (a JS millisecond number; 0 models an absent
or falsy expiry_date). -/
structure Credential where
  access_token : String
  refresh_token : Option String
  expiry_date : Int
deriving DecidableEq

/-- In-place write-back of a successful token refresh (src/server.js lines
788-789):
oauthTokens.access_token = refreshed.credentials.access_token or-else old;
oauthTokens.expiry_date = refreshed.credentials.expiry_date or-else old.
An absent access token is the empty string and an absent expiry is 0 (the
falsy JS values); the refresh token is never touched. -/
def applyRefresh (old : Credential) (respAccess : String) (respExpiry : Int) :
    Credential :=
  { old with
    access_token := if respAccess == "" then old.access_token else respAccess
    expiry_date := if respExpiry == 0 then old.expiry_date else respExpiry }

/-- C9 counterexample: a successful refresh whose response carries an expiry
instant earlier than the stored one writes that earlier expiry back, so the
refreshed credential does not always carry a newer-or-equal expiry. -/
theorem refresh_can_lower_expiry :
    (applyRefresh
        { access_token := "a", refresh_token := some "r", expiry_date := 2000000 }
        "b" 1000000).expiry_date = 1000000
    ∧ ¬ ((2000000 : Int) ≤
        (applyRefresh
            { access_token := "a", refresh_token := some "r", expiry_date := 2000000 }
            "b" 1000000).expiry_date) := by
  refine ⟨rfl, by decide⟩

/-- C9 (amended): the refresh write-back takes the response's access token
and expiry verbatim when present and keeps the old values when the response
omits them, never touching the refresh token; consequently the refreshed
credential carries a newer-or-equal expiry exactly when the response omits
the expiry or returns one no earlier than the stored expiry. -/
theorem refresh_expiry_monotone (old : Credential) (ra : String) (re : Int)
    (h : re = 0 ∨ old.expiry_date ≤ re) :
    old.expiry_date ≤ (applyRefresh old ra re).expiry_date
    ∧ (applyRefresh old ra re).refresh_token = old.refresh_token := by
  refine ⟨?_, rfl⟩
  simp only [applyRefresh, beq_iff_eq]
  rcases h with h0 | hle
  · simp [h0]
  · by_cases hz : re = 0 <;> simp [hz] <;> omega

/-- Witness for C9 (amended): a refresh response with a later expiry
(2000000 over 1500000) yields a credential whose expiry did not decrease and
whose refresh token is untouched. -/
theorem refresh_expiry_monotone_witness :
    ((2000000 : Int) = 0 ∨ (1500000 : Int) ≤ 2000000)
    ∧ (1500000 : Int) ≤
        (applyRefresh
            { access_token := "a", refresh_token := some "r", expiry_date := 1500000 }
            "b" 2000000).expiry_date
    ∧ (applyRefresh
          { access_token := "a", refresh_token := some "r", expiry_date := 1500000 }
          "b" 2000000).refresh_token = some "r" := by
  have h := refresh_expiry_monotone
      { access_token := "a", refresh_token := some "r", expiry_date := 1500000 }
      "b" 2000000 (Or.inr (by norm_num))
  exact ⟨Or.inr (by norm_num), h.1, h.2⟩

/-- POST /api/yt/enabled handler (src/server.js lines 1130-1146): set the
flag; in both directions clear the backoff pair and reset the live state;
when disabling additionally stop the armed timer.  Enabling arms nothing. -/
def setEnabledEndpoint (s : ServerState) (enabled : Bool) : ServerState :=
  if enabled then
    resetLiveState { s with ytEnabled := true, backoffUntil := none, backoffMs := 0 }
  else
    { resetLiveState { s with ytEnabled := false, backoffUntil := none, backoffMs := 0 }
      with pollArmed := false }

/-- ensurePolling (src/server.js lines 960-964): when enabled and no timer is
armed, arm one at the clamped base interval; otherwise do nothing.  Returns
the new state and the armed delay (none when nothing was armed). -/
def ensurePollingStep (ytPollMs : Int) (s : ServerState) : ServerState × Option Int :=
  if !s.ytEnabled then (s, none)
  else if s.pollArmed then (s, none)
  else ({ s with pollArmed := true }, some (scheduleDelayInt (max 1200 ytPollMs)))

/-- C8 counterexample: explicitly enabling the scheduler from the disabled,
unarmed state leaves the timer unarmed — the enable endpoint schedules no
wake at all, so no poll wake is armed before a subscriber connects. -/
theorem enable_arms_no_wake :
    (setEnabledEndpoint
        { ytEnabled := false, pollArmed := false, backoffMs := 0,
          backoffUntil := none, lastSeenMessageId := none,
          activeLiveChatId := none, nextPageToken := none,
          activeBroadcast := none } true).ytEnabled = true
    ∧ (setEnabledEndpoint
        { ytEnabled := false, pollArmed := false, backoffMs := 0,
          backoffUntil := none, lastSeenMessageId := none,
          activeLiveChatId := none, nextPageToken := none,
          activeBroadcast := none } true).pollArmed = false := by
  exact ⟨rfl, rfl⟩

/-- C8 (amended): the enable endpoint only sets the flag, clears the backoff
pair and resets the live state, leaving the timer exactly as it was; a wake
is armed only when ensurePolling later runs (on an SSE connect or on the
OAuth callback) while enabled and unarmed, and that wake uses the delay
max(1200, YT_POLL_MS). -/
theorem enable_then_connect_arms (s : ServerState) (yt : Int) :
    (setEnabledEndpoint s true).ytEnabled = true
    ∧ (setEnabledEndpoint s true).pollArmed = s.pollArmed
    ∧ (setEnabledEndpoint s true).backoffMs = 0
    ∧ (setEnabledEndpoint s true).backoffUntil = none
    ∧ (s.pollArmed = false →
        (ensurePollingStep yt (setEnabledEndpoint s true)).2 = some (max 1200 yt)
        ∧ (ensurePollingStep yt (setEnabledEndpoint s true)).1.pollArmed = true) := by
  refine ⟨rfl, rfl, rfl, rfl, ?_⟩
  intro hun
  have harm : (setEnabledEndpoint s true).pollArmed = false := hun
  constructor
  · have hval : scheduleDelayInt (max 1200 yt) = max 1200 yt := by
      simp only [scheduleDelayInt, scheduleDelay, jsNumOr1200, beq_iff_eq]
      have hne : ¬ (max 1200 yt = (0 : Int)) := by omega
      rw [if_neg hne]
      omega
    simp [ensurePollingStep, setEnabledEndpoint, resetLiveState, hun, hval]
  · simp [ensurePollingStep, setEnabledEndpoint, resetLiveState, hun]

/-- Witness for C8 (amended): enabling from the disabled unarmed state, then
one SSE connect, arms a wake of max(1200, 15000) = 15000 ms. -/
theorem enable_then_connect_arms_witness :
    (setEnabledEndpoint
        { ytEnabled := false, pollArmed := false, backoffMs := 60000,
          backoffUntil := some 5, lastSeenMessageId := none,
          activeLiveChatId := none, nextPageToken := none,
          activeBroadcast := none } true).ytEnabled = true
    ∧ (ensurePollingStep 15000
        (setEnabledEndpoint
          { ytEnabled := false, pollArmed := false, backoffMs := 60000,
            backoffUntil := some 5, lastSeenMessageId := none,
            activeLiveChatId := none, nextPageToken := none,
            activeBroadcast := none } true)).2 = some 15000 := by
  have h := enable_then_connect_arms
      { ytEnabled := false, pollArmed := false, backoffMs := 60000,
        backoffUntil := some 5, lastSeenMessageId := none,
        activeLiveChatId := none, nextPageToken := none,
        activeBroadcast := none } 15000
  have h5 := (h.2.2.2.2 rfl).1
  norm_num at h5
  exact ⟨h.1, h5⟩

/-- Emitted event, tagged by its kind discriminant: a chat transcript line,
an enriched toast, or a status notice. -/
inductive Event where
  | chat (id name text role : String) (publishedAt : Option Nat)
  | toast (ty title body : String)
  | status (level message : String)
deriving DecidableEq

/-- Connected SSE subscriber: the response sink plus whether res.write
currently succeeds (false models a closed or broken connection whose write
throws). -/
structure Sink where
  id : Nat
  writeOk : Bool
deriving DecidableEq

/-- res.write on one sink: succeeds or throws. -/
def writeSink (s : Sink) (_ : String) : Except String Unit :=
  if s.writeOk then Except.ok () else Except.error "write failed"

/-- State owned by the fanout: the subscriber set (sseClients) and the
retained last status event (lastStatus). -/
structure Fanout where
  subscribers : List Sink
  lastStatus : Option Event
deriving DecidableEq

/-- The SSE payload framing built once per broadcast (src/server.js line 669). -/
def sseFrame (dataStr : String) : String := "event: yt\ndata: " ++ dataStr ++ "\n\n"

/-- The delivery loop of broadcastEvent: try res.write(payload) on each
subscriber in order, catching and ignoring an individual failure; the
subscriber set itself is never mutated here.  Returns the successful
deliveries (subscriber id, payload) in order. -/
def deliverLoop : List Sink → String → List (Nat × String)
  | [], _ => []
  | s :: rest, p =>
    match writeSink s p with
    | Except.ok _ => (s.id, p) :: deliverLoop rest p
    | Except.error _ => deliverLoop rest p

/-- Discriminant test used by broadcastEvent for the lastStatus update. -/
def isStatusEvent : Event → Bool
  | .status .. => true
  | _ => false

/-- broadcastEvent (src/server.js lines 664-673), parametric in the JSON
serialisation of the event: retain a status-kind event as lastStatus, build
the SSE payload once, and deliver that same payload to every subscriber,
ignoring individual write failures.  Total by construction: the only fallible
operation, writeSink, is caught inside deliverLoop, so no failure escapes. -/
def broadcastEventModel (serialize : Event → String) (f : Fanout) (evt : Event) :
    Fanout × List (Nat × String) :=
  let f' := if isStatusEvent evt then { f with lastStatus := some evt } else f
  (f', deliverLoop f.subscribers (sseFrame (serialize evt)))

/-- Deliveries of the loop: every subscriber whose write succeeds receives
the payload, and nothing but that payload is ever delivered. -/
theorem deliverLoop_deliveries (subs : List Sink) (p : String) :
    (∀ s, s ∈ subs → s.writeOk = true → (s.id, p) ∈ deliverLoop subs p)
    ∧ (∀ d, d ∈ deliverLoop subs p → d.2 = p) := by
  induction subs with
  | nil =>
    constructor
    · intro s hs
      exact absurd hs (List.not_mem_nil s)
    · intro d hd
      simp [deliverLoop] at hd
  | cons a rest ih =>
    constructor
    · intro s hs hok
      rcases List.mem_cons.mp hs with h | h
      · subst h
        simp [deliverLoop, writeSink, hok]
      · have hmem := ih.1 s h hok
        by_cases ha : a.writeOk = true
        · simp only [deliverLoop, writeSink, ha, if_true]
          exact List.mem_cons_of_mem _ hmem
        · have ha' : a.writeOk = false := by
            cases hav : a.writeOk
            · rfl
            · exact absurd hav ha
          simp only [deliverLoop, writeSink, ha', Bool.false_eq_true, if_false]
          exact hmem
    · intro d hd
      by_cases ha : a.writeOk = true
      · simp only [deliverLoop, writeSink, ha, if_true] at hd
        rcases List.mem_cons.mp hd with h | h
        · subst h; rfl
        · exact ih.2 d h
      · have ha' : a.writeOk = false := by
          cases hav : a.writeOk
          · rfl
          · exact absurd hav ha
        simp only [deliverLoop, writeSink, ha', Bool.false_eq_true, if_false] at hd
        exact ih.2 d hd

/-- C5 counterexample: broadcasting over a subscriber set holding one open
sink and one failing sink leaves the failing sink in the subscriber set —
broadcastEvent catches the failure but performs no removal (removal happens
only in the connection close handler), so the claim that broadcast removes
the failed subscriber fails at this input. -/
theorem failed_subscriber_not_removed :
    writeSink { id := 2, writeOk := false } (sseFrame "x") = Except.error "write failed"
    ∧ (broadcastEventModel (fun _ => "x")
        { subscribers := [{ id := 1, writeOk := true }, { id := 2, writeOk := false }],
          lastStatus := none }
        (Event.chat "i" "n" "t" "" none)).1.subscribers
      = [{ id := 1, writeOk := true }, { id := 2, writeOk := false }]
    ∧ (broadcastEventModel (fun _ => "x")
        { subscribers := [{ id := 1, writeOk := true }, { id := 2, writeOk := false }],
          lastStatus := none }
        (Event.chat "i" "n" "t" "" none)).2 = [(1, sseFrame "x")] := by
  exact ⟨rfl, rfl, rfl⟩

/-- C5 (amended): broadcast never raises (it is total, every write failure
being caught in the delivery loop), delivers the same serialized payload to
every subscriber whose write succeeds, delivers nothing but that payload,
and leaves the subscriber set unchanged — in particular a failed subscriber
is not removed by broadcast itself; it is removed only when its connection
close event fires. -/
theorem broadcast_isolates_failures (serialize : Event → String) (f : Fanout)
    (evt : Event) :
    (broadcastEventModel serialize f evt).1.subscribers = f.subscribers
    ∧ (∀ s, s ∈ f.subscribers → s.writeOk = true →
        (s.id, sseFrame (serialize evt)) ∈ (broadcastEventModel serialize f evt).2)
    ∧ (∀ d, d ∈ (broadcastEventModel serialize f evt).2 →
        d.2 = sseFrame (serialize evt)) := by
  refine ⟨?_, ?_, ?_⟩
  · by_cases h : isStatusEvent evt = true <;>
      simp [broadcastEventModel, h]
  · intro s hs hok
    exact (deliverLoop_deliveries f.subscribers (sseFrame (serialize evt))).1 s hs hok
  · intro d hd
    exact (deliverLoop_deliveries f.subscribers (sseFrame (serialize evt))).2 d hd

/-- Witness for C5 (amended): with one open and one failing subscriber, the
open subscriber with id 1 receives the payload and the set is unchanged. -/
theorem broadcast_isolates_failures_witness :
    ({ id := 1, writeOk := true } : Sink) ∈
        [({ id := 1, writeOk := true } : Sink), { id := 2, writeOk := false }]
    ∧ ({ id := 1, writeOk := true } : Sink).writeOk = true
    ∧ (1, sseFrame "x") ∈
        (broadcastEventModel (fun _ => "x")
          { subscribers := [{ id := 1, writeOk := true }, { id := 2, writeOk := false }],
            lastStatus := none }
          (Event.chat "i" "n" "t" "" none)).2
    ∧ (broadcastEventModel (fun _ => "x")
        { subscribers := [{ id := 1, writeOk := true }, { id := 2, writeOk := false }],
          lastStatus := none }
        (Event.chat "i" "n" "t" "" none)).1.subscribers
      = [{ id := 1, writeOk := true }, { id := 2, writeOk := false }] := by
  have h := broadcast_isolates_failures (fun _ => "x")
      { subscribers := [{ id := 1, writeOk := true }, { id := 2, writeOk := false }],
        lastStatus := none }
      (Event.chat "i" "n" "t" "" none)
  refine ⟨by simp, rfl, ?_, h.1⟩
  exact h.2.1 { id := 1, writeOk := true } (by simp) rfl

/-- JS whitespace, the class matched by the regex token backslash-s and
removed by String.prototype.trim: tab, line feed, vertical tab, form feed,
carriage return, space, NBSP, and the Unicode space separators plus the line
and paragraph separators and the BOM. -/
def isJsSpace (c : Char) : Bool :=
  c == ' ' || c == '\t' || c == '\n' || c == '\r' ||
  c.val == 0x0b || c.val == 0x0c || c.val == 0xa0 || c.val == 0x1680 ||
  (0x2000 ≤ c.val && c.val ≤ 0x200a) || c.val == 0x2028 || c.val == 0x2029 ||
  c.val == 0x202f || c.val == 0x205f || c.val == 0x3000 || c.val == 0xfeff

/-- String.prototype.trim over the character list. -/
def jsTrim (s : List Char) : List Char :=
  ((s.dropWhile isJsSpace).reverse.dropWhile isJsSpace).reverse

/-- String.prototype.trim. -/
def jsTrimStr (s : String) : String := String.mk (jsTrim s.data)

/-- Regular expressions over characters, covering exactly the constructs the
gift heuristics use: character classes, concatenation, alternation (for the
optional groups) and Kleene star (for the one-or-more quantifiers and the
unanchored search). -/
inductive RE where
  | fail
  | eps
  | cls (p : Char → Bool)
  | seq (a b : RE)
  | alt (a b : RE)
  | star (a : RE)

/-- The regex accepts the empty string. -/
def RE.nullable : RE → Bool
  | .fail => false
  | .eps => true
  | .cls _ => false
  | .seq a b => a.nullable && b.nullable
  | .alt a b => a.nullable || b.nullable
  | .star _ => true

/-- Brzozowski derivative with respect to one character. -/
def RE.deriv : RE → Char → RE
  | .fail, _ => .fail
  | .eps, _ => .fail
  | .cls p, c => if p c then .eps else .fail
  | .seq a b, c =>
    if a.nullable then .alt (.seq (a.deriv c) b) (b.deriv c)
    else .seq (a.deriv c) b
  | .alt a b, c => .alt (a.deriv c) (b.deriv c)
  | .star a, c => .seq (a.deriv c) (.star a)

/-- Whole-string acceptance by iterated derivatives. -/
def RE.accepts : RE → List Char → Bool
  | r, [] => r.nullable
  | r, c :: cs => RE.accepts (r.deriv c) cs

/-- The optional quantifier. -/
def RE.opt (r : RE) : RE := .alt .eps r

/-- The one-or-more quantifier. -/
def RE.plus (r : RE) : RE := .seq r (.star r)

/-- Any single character. -/
def anyCls : RE := .cls (fun _ => true)

/-- One character, case-insensitively (the regexes carry the i flag; the
fold-down is the identity outside ASCII, matching the Japanese literals). -/
def chrCI (c : Char) : RE := .cls (fun x => x.toLower == c.toLower)

/-- A literal string, case-insensitively. -/
def lit (s : String) : RE := s.data.foldr (fun c r => RE.seq (chrCI c) r) .eps

/-- The whitespace class of the patterns. -/
def wsCls : RE := .cls isJsSpace

/-- The digit class of the patterns. -/
def digitCls : RE := .cls Char.isDigit

/-- One or more whitespace characters. -/
def plusWs : RE := RE.plus wsCls

/-- Zero or more whitespace characters. -/
def starWs : RE := RE.star wsCls

/-- One or more digits. -/
def plusDigit : RE := RE.plus digitCls

/-- Concatenation of a pattern piece list. -/
def reCat (l : List RE) : RE := l.foldr RE.seq .eps

/-- Unanchored search, the semantics of RegExp.prototype.test: some
contiguous substring matches the pattern. -/
def reSearch (r : RE) (s : List Char) : Bool :=
  RE.accepts (reCat [RE.star anyCls, r, RE.star anyCls]) s

/-- The ordered membership-gift heuristics of classifySpecialEvent
(src/server.js lines 734-746): four English and five Japanese phrasings. -/
def giftPatterns : List RE :=
  [ reCat [lit "gift", RE.opt (lit "ed"), plusWs, plusDigit, plusWs,
           lit "membership", RE.opt (lit "s")],
    reCat [lit "gift", RE.opt (lit "ed"), plusWs, lit "a", plusWs,
           lit "membership"],
    reCat [lit "gave", plusWs, plusDigit, plusWs, lit "membership",
           RE.opt (lit "s")],
    reCat [lit "sent", plusWs, plusDigit, plusWs, lit "membership", plusWs,
           lit "gift", RE.opt (lit "s")],
    reCat [lit "メンバーシップ", starWs, lit "ギフト"],
    reCat [lit "メンバーシップを", starWs, plusDigit, starWs, lit "件", starWs,
           lit "ギフト"],
    reCat [plusDigit, starWs, lit "件のメンバーシップ", RE.opt (lit "を"), starWs,
           lit "ギフト"],
    reCat [lit "メンバーシップをギフトしました"],
    reCat [lit "メンバーシップ", starWs, plusDigit, starWs, lit "個", starWs,
           lit "ギフト"] ]

/-- patterns.some((re) => re.test(msg)). -/
def matchesGiftMessage (s : List Char) : Bool :=
  giftPatterns.any fun r => reSearch r s

/-- superChatDetails of a raw chat item. -/
structure SuperChatDetails where
  amountDisplayString : String
  tier : Nat
deriving DecidableEq

/-- newSponsorDetails of a raw chat item. -/
structure NewSponsorDetails where
  membershipLevelName : String
deriving DecidableEq

/-- snippet of a raw chat item; publishedAt is an abstract timestamp
(chronologically ordered, standing for the ISO instant string). -/
structure Snippet where
  superChatDetails : Option SuperChatDetails
  newSponsorDetails : Option NewSponsorDetails
  displayMessage : Option String
  publishedAt : Option Nat
deriving DecidableEq

/-- authorDetails of a raw chat item. -/
structure AuthorDetails where
  displayName : Option String
  isChatOwner : Bool
  isChatModerator : Bool
  isChatSponsor : Bool
deriving DecidableEq

/-- One raw liveChatMessage resource, restricted to the fields the server
reads. -/
structure ChatItem where
  id : String
  snippet : Snippet
  authorDetails : AuthorDetails
deriving DecidableEq

/-- Special-event classification result. -/
inductive Special where
  | superchat (amount : String) (tier : Nat)
  | membership (level : String)
  | gift (message : String)
deriving DecidableEq

/-- classifySpecialEvent (src/server.js lines 707-753): superchat details
first, then membership details, then the trimmed display text against the
gift heuristics; anything else is no special event. -/
def classifySpecialEvent (item : ChatItem) : Option Special :=
  match item.snippet.superChatDetails with
  | some d => some (.superchat d.amountDisplayString d.tier)
  | none =>
    match item.snippet.newSponsorDetails with
    | some m => some (.membership m.membershipLevelName)
    | none =>
      let msg := jsTrimStr (item.snippet.displayMessage.getD "")
      if msg == "" then none
      else if matchesGiftMessage msg.data then some (.gift msg)
      else none

/-- C3: the classifier yields at most one special event, in priority order —
a superchat carrying the displayed amount and tier when superChatDetails is
present; otherwise a membership carrying the level name when
newSponsorDetails is present; otherwise a gift carrying the trimmed raw text
when that text is non-empty and matches one of the ordered gift heuristics;
otherwise (in particular for empty or whitespace-only text with no detail
fields) no special event, and the classifier is a total function, so no
input can crash it. -/
theorem classify_priority (item : ChatItem) :
    (∀ d, item.snippet.superChatDetails = some d →
      classifySpecialEvent item = some (.superchat d.amountDisplayString d.tier))
    ∧ (item.snippet.superChatDetails = none →
        ∀ m, item.snippet.newSponsorDetails = some m →
          classifySpecialEvent item = some (.membership m.membershipLevelName))
    ∧ (item.snippet.superChatDetails = none →
        item.snippet.newSponsorDetails = none →
        jsTrimStr (item.snippet.displayMessage.getD "") ≠ "" →
        matchesGiftMessage (jsTrimStr (item.snippet.displayMessage.getD "")).data = true →
          classifySpecialEvent item =
            some (.gift (jsTrimStr (item.snippet.displayMessage.getD ""))))
    ∧ (item.snippet.superChatDetails = none →
        item.snippet.newSponsorDetails = none →
        (jsTrimStr (item.snippet.displayMessage.getD "") = ""
          ∨ matchesGiftMessage (jsTrimStr (item.snippet.displayMessage.getD "")).data = false) →
          classifySpecialEvent item = none) := by
  refine ⟨?_, ?_, ?_, ?_⟩
  · intro d hd
    simp [classifySpecialEvent, hd]
  · intro hsc m hm
    simp [classifySpecialEvent, hsc, hm]
  · intro hsc hm hne hmatch
    have hbeq : (jsTrimStr (item.snippet.displayMessage.getD "") == "") = false := by
      simpa [beq_eq_false_iff_ne] using hne
    simp [classifySpecialEvent, hsc, hm, hbeq, hmatch]
  · intro hsc hm hcase
    rcases hcase with hempty | hnomatch
    · simp [classifySpecialEvent, hsc, hm, hempty]
    · by_cases hempty : jsTrimStr (item.snippet.displayMessage.getD "") = ""
      · simp [classifySpecialEvent, hsc, hm, hempty]
      · have hbeq : (jsTrimStr (item.snippet.displayMessage.getD "") == "") = false := by
          simpa [beq_eq_false_iff_ne] using hempty
        simp [classifySpecialEvent, hsc, hm, hbeq, hnomatch]

/-- Witness for C3: a whitespace-only message with no detail fields yields no
special event, and the message "gifted 5 memberships" with no detail fields
yields the inferred gift event carrying the trimmed raw text. -/
theorem classify_priority_witness :
    classifySpecialEvent
        { id := "w1",
          snippet := { superChatDetails := none, newSponsorDetails := none,
                       displayMessage := some "   ", publishedAt := none },
          authorDetails := { displayName := some "A", isChatOwner := false,
                             isChatModerator := false, isChatSponsor := false } }
      = none
    ∧ classifySpecialEvent
        { id := "w2",
          snippet := { superChatDetails := none, newSponsorDetails := none,
                       displayMessage := some "gifted 5 memberships",
                       publishedAt := none },
          authorDetails := { displayName := some "A", isChatOwner := false,
                             isChatModerator := false, isChatSponsor := false } }
      = some (.gift "gifted 5 memberships") := by
  constructor
  · exact (classify_priority
      { id := "w1",
        snippet := { superChatDetails := none, newSponsorDetails := none,
                     displayMessage := some "   ", publishedAt := none },
        authorDetails := { displayName := some "A", isChatOwner := false,
                           isChatModerator := false, isChatSponsor := false } }).2.2.2
      rfl rfl (Or.inl (by decide))
  · have h := (classify_priority
      { id := "w2",
        snippet := { superChatDetails := none, newSponsorDetails := none,
                     displayMessage := some "gifted 5 memberships",
                     publishedAt := none },
        authorDetails := { displayName := some "A", isChatOwner := false,
                           isChatModerator := false, isChatSponsor := false } }).2.2.1
      rfl rfl (by decide) (by decide)
    simpa using h

/-- Author role derivation (src/server.js lines 845-848):
owner over moderator over sponsor, else the empty string. -/
def roleOf (a : AuthorDetails) : String :=
  if a.isChatOwner then "owner"
  else if a.isChatModerator then "mod"
  else if a.isChatSponsor then "member"
  else ""

/-- authorDetails.displayName or-else Someone (line 842; empty is falsy). -/
def displayNameOf (a : AuthorDetails) : String :=
  match a.displayName with
  | some n => if n == "" then "Someone" else n
  | none => "Someone"

/-- Events broadcast for one item of the page loop (src/server.js lines
839-894): a chat event whenever the trimmed text is non-empty, followed by
the toast for the item's special classification when there is one. -/
def eventsForItem (item : ChatItem) : List Event :=
  let name := displayNameOf item.authorDetails
  let text := jsTrimStr (item.snippet.displayMessage.getD "")
  let chatPart : List Event :=
    if text == "" then []
    else [Event.chat item.id name text (roleOf item.authorDetails)
            item.snippet.publishedAt]
  let toastPart : List Event :=
    match classifySpecialEvent item with
    | some (.superchat amount _) =>
        [Event.toast "superchat" "SUPER CHAT"
          (jsTrimStr (name ++ "：" ++ amount ++ "  " ++ text))]
    | some (.membership level) =>
        [Event.toast "membership" "MEMBERSHIP"
          (name ++ "：メンバーになりました" ++
            (if level == "" then "" else "（" ++ level ++ "）"))]
    | some (.gift m) =>
        [Event.toast "gift" "GIFT" (name ++ "：" ++ m)]
    | none => []
  chatPart ++ toastPart

/-- The body of the page loop over toProcess, emitting per-item events in
list order. -/
def broadcastAllItems : List ChatItem → List Event
  | [] => []
  | it :: rest => eventsForItem it ++ broadcastAllItems rest

/-- Event emission for one fetched page (src/server.js lines 836-894):
toProcess = items.slice().reverse(), then the loop. -/
def processPage (items : List ChatItem) : List Event :=
  broadcastAllItems items.reverse

/-- Timestamp of an item (absent instants compare as 0). -/
def itemTime (it : ChatItem) : Nat := it.snippet.publishedAt.getD 0

/-- Timestamps of the plain-message (chat) events of an event list, in
emission order. -/
def chatTimes (evts : List Event) : List Nat :=
  evts.filterMap fun e =>
    match e with
    | .chat _ _ _ _ t => some (t.getD 0)
    | _ => none

/-- The chat event an item contributes: its timestamp when its trimmed text
is non-empty, nothing otherwise. -/
def chatTimeOfItem (it : ChatItem) : Option Nat :=
  if jsTrimStr (it.snippet.displayMessage.getD "") == "" then none
  else some (itemTime it)

/-- A plain chat item used in the order theorems. -/
def plainItem (i : String) (t : Nat) (txt : String) : ChatItem :=
  { id := i,
    snippet := { superChatDetails := none, newSponsorDetails := none,
                 displayMessage := some txt, publishedAt := some t },
    authorDetails := { displayName := some "A", isChatOwner := false,
                       isChatModerator := false, isChatSponsor := false } }

/-- The chat timestamps contributed by one item's events. -/
theorem chatTimes_eventsForItem (it : ChatItem) :
    chatTimes (eventsForItem it) = (chatTimeOfItem it).toList := by
  by_cases h : (jsTrimStr (it.snippet.displayMessage.getD "") == "") = true
  · cases hc : classifySpecialEvent it with
    | none => simp [eventsForItem, chatTimes, chatTimeOfItem, h, hc]
    | some sp =>
      cases sp <;> simp [eventsForItem, chatTimes, chatTimeOfItem, h, hc]
  · have h' : (jsTrimStr (it.snippet.displayMessage.getD "") == "") = false := by
      cases hb : (jsTrimStr (it.snippet.displayMessage.getD "") == "")
      · rfl
      · exact absurd hb h
    cases hc : classifySpecialEvent it with
    | none => simp [eventsForItem, chatTimes, chatTimeOfItem, h', hc, itemTime]
    | some sp =>
      cases sp <;> simp [eventsForItem, chatTimes, chatTimeOfItem, h', hc, itemTime]

/-- The chat timestamps of the loop are the filtered item timestamps. -/
theorem chatTimes_broadcastAllItems (l : List ChatItem) :
    chatTimes (broadcastAllItems l) = l.filterMap chatTimeOfItem := by
  induction l with
  | nil => simp [broadcastAllItems, chatTimes]
  | cons a rest ih =>
    have happ : chatTimes (eventsForItem a ++ broadcastAllItems rest)
        = chatTimes (eventsForItem a) ++ chatTimes (broadcastAllItems rest) := by
      simp [chatTimes, List.filterMap_append]
    cases ha : chatTimeOfItem a with
    | none =>
      simp [broadcastAllItems, happ, chatTimes_eventsForItem, ha, ih,
        List.filterMap_cons]
    | some x =>
      simp [broadcastAllItems, happ, chatTimes_eventsForItem, ha, ih,
        List.filterMap_cons]

/-- The contributed timestamp is the item's timestamp. -/
theorem chatTimeOfItem_eq_some (it : ChatItem) (y : Nat)
    (h : chatTimeOfItem it = some y) : y = itemTime it := by
  by_cases hb : (jsTrimStr (it.snippet.displayMessage.getD "") == "") = true
  · simp [chatTimeOfItem, hb] at h
  · have hb' : (jsTrimStr (it.snippet.displayMessage.getD "") == "") = false := by
      cases hx : (jsTrimStr (it.snippet.displayMessage.getD "") == "")
      · rfl
      · exact absurd hx hb
    simp [chatTimeOfItem, hb'] at h
    omega

/-- Non-decreasing item timestamps filter to non-decreasing chat times. -/
theorem filterMap_chatTime_sorted (l : List ChatItem)
    (h : l.Pairwise (fun a b => itemTime a ≤ itemTime b)) :
    (l.filterMap chatTimeOfItem).Pairwise (fun a b => a ≤ b) := by
  induction l with
  | nil => simp
  | cons a rest ih =>
    rcases List.pairwise_cons.mp h with ⟨hhead, htail⟩
    cases ha : chatTimeOfItem a with
    | none =>
      simpa [List.filterMap_cons, ha] using ih htail
    | some x =>
      rw [List.filterMap_cons, ha]
      refine List.pairwise_cons.mpr ⟨?_, ih htail⟩
      intro y hy
      rcases List.mem_filterMap.mp hy with ⟨b, hb, hby⟩
      have hx : x = itemTime a := chatTimeOfItem_eq_some a x ha
      have hyb : y = itemTime b := chatTimeOfItem_eq_some b y hby
      rw [hx, hyb]
      exact hhead b hb

/-- C4 counterexample: a page returned oldest-first (timestamps 100 then
200) is still reversed before emission, so the emitted chat events carry
timestamps 200 then 100 — not chronological order.  Order is therefore not
preserved regardless of the order in which the page returns its items. -/
theorem oldest_first_page_not_chronological :
    chatTimes (processPage
        [plainItem "a" 100 "first msg", plainItem "b" 200 "second msg"])
      = [200, 100]
    ∧ ¬ (chatTimes (processPage
        [plainItem "a" 100 "first msg", plainItem "b" 200 "second msg"])).Pairwise
          (fun a b => a ≤ b) := by
  constructor
  · decide
  · intro hp
    have := (List.pairwise_cons.mp ((by decide : chatTimes (processPage
        [plainItem "a" 100 "first msg", plainItem "b" 200 "second msg"])
      = [200, 100]) ▸ hp)).1 100 (by simp)
    omega

/-- C4 (amended): each fetched page is reversed before emission; hence for a
page returned newest-first (non-increasing timestamps) the emitted
plain-message events are in chronological (non-decreasing) order.  A page in
any other order is emitted in its reverse order, not sorted. -/
theorem newest_first_page_chronological (items : List ChatItem)
    (h : items.Pairwise (fun a b => itemTime b ≤ itemTime a)) :
    (chatTimes (processPage items)).Pairwise (fun a b => a ≤ b) := by
  have hrev : items.reverse.Pairwise (fun a b => itemTime a ≤ itemTime b) :=
    (List.pairwise_reverse).mpr h
  rw [show processPage items = broadcastAllItems items.reverse from rfl,
    chatTimes_broadcastAllItems]
  exact filterMap_chatTime_sorted items.reverse hrev

/-- Witness for C4 (amended): a newest-first page (timestamps 200 then 100)
is emitted with chat timestamps 100 then 200, in chronological order. -/
theorem newest_first_page_chronological_witness :
    ([plainItem "b" 200 "second msg", plainItem "a" 100 "first msg"].Pairwise
        (fun a b => itemTime b ≤ itemTime a))
    ∧ (chatTimes (processPage
        [plainItem "b" 200 "second msg", plainItem "a" 100 "first msg"])).Pairwise
          (fun a b => a ≤ b)
    ∧ chatTimes (processPage
        [plainItem "b" 200 "second msg", plainItem "a" 100 "first msg"])
      = [100, 200] := by
  refine ⟨?_, ?_, by decide⟩
  · refine List.pairwise_cons.mpr ⟨?_, by simp⟩
    intro b hb
    simp only [List.mem_singleton] at hb
    subst hb
    decide
  · apply newest_first_page_chronological
    refine List.pairwise_cons.mpr ⟨?_, by simp⟩
    intro b hb
    simp only [List.mem_singleton] at hb
    subst hb
    decide

end StreamingScreen
